import Mathlib

/-!
Verification of the GPR Gaussian-process regression engine
(`src/include/GaussianProcess.h`, `src/include/KernelFactory.h`,
`src/lib/GaussianProcess.cpp`) against its natural-language specification.

The C++ engine is shallowly embedded: scalars are modelled as exact
rationals `ℚ` (the C++ code is templated over a floating-point scalar and
the persisted format is required to round-trip at full scalar precision),
`Eigen` dynamic vectors become `List ℚ` and row-major dynamic matrices
become `List (List ℚ)` in row-major layout.  Member functions that mutate
the object become state-passing functions `GPState → ... → GPState × _`;
`throw std::string(...)` becomes an error value of the enumerated error
taxonomy.  The concrete kernel classes live in `Kernel.h`, which is not
part of the three source files; per the specification the kernel is a
consumed capability, so kernel evaluation is kept abstract (a parameter
`AtomicEval` supplies the atomic kernels' evaluation functions) while the
structural data of a kernel (variant, parameters, type tag, structural
equality) is modelled from the specification's kernel grammar.
-/

/-- A dynamic vector (`Eigen::Matrix<T, Dynamic, 1>`), as a list of exact
scalars. -/
abbrev Vec : Type := List ℚ

/-- A dynamic row-major matrix (`Eigen::Matrix<T, Dynamic, Dynamic, RowMajor>`),
as a list of rows. -/
abbrev Mat : Type := List (List ℚ)

/-- Entry `A(i, j)` of a matrix, totalised with 0 outside the stored range
(out-of-range Eigen access is undefined; every indexed use below is within
range). -/
def entry (A : Mat) (i j : Nat) : ℚ := (A.getD i []).getD j 0

/-- The column count of a row-major matrix: the length of its first row
(`Eigen .cols()`); all matrices built by the engine are rectangular. -/
def cols (A : Mat) : Nat := (A.getD 0 []).length

/-- Build an `n × m` matrix row by row from an entry function. -/
def mkMat (n m : Nat) (f : Nat → Nat → ℚ) : Mat :=
  (List.range n).map (fun i => (List.range m).map (fun j => f i j))

/-- Build a vector of length `n` from an entry function. -/
def mkVec (n : Nat) (f : Nat → ℚ) : Vec :=
  (List.range n).map f

/-- Matrix product (`Eigen operator*`); the inner dimension is the column
count of the left factor, which at every use site equals the row count of
the right factor. -/
def matMul (A B : Mat) : Mat :=
  mkMat A.length (cols B) (fun i j =>
    ((List.range (cols A)).map (fun k => entry A i k * entry B k j)).sum)

/-- View the first `n × n` block of a `Mat` as a Mathlib matrix. -/
def toM (n : Nat) (A : Mat) : Matrix (Fin n) (Fin n) ℚ :=
  Matrix.of (fun i j => entry A i.1 j.1)

/-- Exact inverse of a square matrix, via determinant and adjugate: the
exact-arithmetic content of `Eigen`'s `K.inverse()` (LU with full
pivoting).  On a singular matrix the C++ result is numerical garbage and
the engine's behaviour is unspecified; here the zero matrix is returned,
and every claim about inverses carries an invertibility hypothesis. -/
def matInv (A : Mat) : Mat :=
  if (toM A.length A).det = 0 then mkMat A.length A.length (fun _ _ => 0)
  else mkMat A.length A.length (fun i j =>
    if h : i < A.length ∧ j < A.length then
      (toM A.length A).det⁻¹ * (toM A.length A).adjugate ⟨i, h.1⟩ ⟨j, h.2⟩
    else 0)

/-- Modelled from the spec: the kernel variants of `Kernel.h` (not among
the three source files).  Atomic variants are `GaussianKernel` and
`PeriodicKernel`; composite variants hold two child kernels (spec §4.1).
Structural equality of this inductive models the kernels' `equals`
(structural equality including parameters, spec §4.1). -/
inductive KernelDesc : Type where
  | gaussian (ps : List ℚ) : KernelDesc
  | periodic (ps : List ℚ) : KernelDesc
  | sum (a b : KernelDesc) : KernelDesc
  | product (a b : KernelDesc) : KernelDesc
deriving DecidableEq, Repr

/-- The atomic kernels' evaluation functions.  The concrete mathematical
form of atomic kernels is outside the specified core (spec §1); the engine
is generic over them, so they are a parameter of the embedding. -/
structure AtomicEval : Type where
  gaussEval : List ℚ → Vec → Vec → ℚ
  periodicEval : List ℚ → Vec → Vec → ℚ

/-- Modelled from the spec: kernel evaluation (`operator()` of `Kernel.h`
subclasses, not among the three source files).  A composite kernel's
`evaluate` is the elementwise combination of its children's evaluations
(spec §4.1): sum for `SumKernel`, product for `ProductKernel`. -/
def kEval (ev : AtomicEval) : KernelDesc → Vec → Vec → ℚ
  | KernelDesc.gaussian ps, x, y => ev.gaussEval ps x y
  | KernelDesc.periodic ps, x, y => ev.periodicEval ps x y
  | KernelDesc.sum a b, x, y => kEval ev a x y + kEval ev b x y
  | KernelDesc.product a b, x, y => kEval ev a x y * kEval ev b x y

/-- Modelled from the spec: the self-describing type tag (`ToString` of
`Kernel.h`, not among the three source files).  Atomic kernel tag is its
bare registered name; a composite tag is `#`-delimited
(`SumKernel#<leftTag>#<rightTag>`, spec §6 kernel tag grammar). -/
def tagOf : KernelDesc → String
  | KernelDesc.gaussian _ => "GaussianKernel"
  | KernelDesc.periodic _ => "PeriodicKernel"
  | KernelDesc.sum a b => "SumKernel#" ++ tagOf a ++ "#" ++ tagOf b
  | KernelDesc.product a b => "ProductKernel#" ++ tagOf a ++ "#" ++ tagOf b

/-- Modelled from the spec: the kernel parameter vector (`GetParameters`
of `Kernel.h`, not among the three source files).  Order-significant; a
composite kernel's parameters are the concatenation of its children's
(spec §4.1). -/
def paramsOf : KernelDesc → List ℚ
  | KernelDesc.gaussian ps => ps
  | KernelDesc.periodic ps => ps
  | KernelDesc.sum a b => paramsOf a ++ paramsOf b
  | KernelDesc.product a b => paramsOf a ++ paramsOf b

/-- The error taxonomy of the specification (§7).  The C++ engine throws
`std::string` messages; each throw site is mapped to its kind.
`FactoryLookupUndefined` is not an error kind of the code: it marks the
undefined behaviour of `KernelFactory::Load` dereferencing the result of
`m_Map->find` without checking it against `end()` on a missing key. -/
inductive GPError : Type where
  | DimensionMismatch : GPError
  | UntrainedState : GPError
  | FileNotFound : GPError
  | CorruptParameterFile : GPError
  | UnknownKernelType : GPError
  | UnimplementedCompositeKernel : GPError
  | TokenizeFailure : GPError
  | FactoryLookupUndefined : GPError
deriving DecidableEq, Repr

/-- Modelled from the spec: the inversion-strategy selector.  The member
`m_InvMethod` and its enum are used by `src/lib/GaussianProcess.cpp`
(line 458) but declared in no file under `src/`; the four strategies and
the `FullPivotLU` default are taken from the spec's strategy table (§4.3). -/
inductive InvMethodType : Type where
  | FullPivotLU : InvMethodType
  | JacobiSVD : InvMethodType
  | BDCSVD : InvMethodType
  | SelfAdjointEigenSolver : InvMethodType
deriving DecidableEq, Repr

/-- The state of a `GaussianProcess<TScalarType>` object: the members
declared at `src/include/GaussianProcess.h:163-176`, plus the
spec-modelled `m_InvMethod`. -/
structure GPState : Type where
  m_Kernel : KernelDesc
  m_Sigma : ℚ
  m_SampleVectors : List Vec
  m_LabelVectors : List Vec
  m_RegressionVectors : Mat
  m_CoreMatrix : Mat
  m_Initialized : Bool
  m_InputDimension : Nat
  m_OutputDimension : Nat
  debug : Bool
  m_InvMethod : InvMethodType
deriving DecidableEq, Repr

/-- The constructor `GaussianProcess(KernelTypePointer kernel)`
(`src/include/GaussianProcess.h:81-87`): sigma 0, not initialized,
dimensions 0, debug off.  The `m_InvMethod` initial value is not declared
under `src/`; it is left as a parameter (the spec's default is
`FullPivotLU`). -/
def NewGaussianProcess (k : KernelDesc) (im : InvMethodType) : GPState :=
  { m_Kernel := k
    m_Sigma := 0
    m_SampleVectors := []
    m_LabelVectors := []
    m_RegressionVectors := []
    m_CoreMatrix := []
    m_Initialized := false
    m_InputDimension := 0
    m_OutputDimension := 0
    debug := false
    m_InvMethod := im }

/-- `GaussianProcess::AddSample` (`src/lib/GaussianProcess.cpp:34-50`).
When the sample (resp. label) storage is empty the call first fixes the
input (resp. output) dimension from the argument, then both dimension
checks run (`CheckInputDimension`/`CheckOutputDimension`, lines 555-571,
throwing on mismatch, mapped to `DimensionMismatch`), then the pair is
appended and the trained flag cleared.  The returned state is the object
state after the call, also when it throws. -/
def AddSample (s : GPState) (x y : Vec) : GPState × Option GPError :=
  let s1 := if s.m_SampleVectors.length = 0 then { s with m_InputDimension := x.length } else s
  let s2 := if s1.m_LabelVectors.length = 0 then { s1 with m_OutputDimension := y.length } else s1
  if x.length ≠ s2.m_InputDimension then (s2, some GPError.DimensionMismatch)
  else if y.length ≠ s2.m_OutputDimension then (s2, some GPError.DimensionMismatch)
  else ({ s2 with
            m_SampleVectors := s2.m_SampleVectors ++ [x]
            m_LabelVectors := s2.m_LabelVectors ++ [y]
            m_Initialized := false }, none)

/-- `GaussianProcess::SetSigma` (`src/include/GaussianProcess.h:105-108`):
stores the noise value and clears the trained flag. -/
def SetSigma (s : GPState) (sig : ℚ) : GPState :=
  { s with m_Sigma := sig, m_Initialized := false }

/-- `GaussianProcess::DebugOn` (`src/include/GaussianProcess.h:93-95`). -/
def DebugOn (s : GPState) : GPState :=
  { s with debug := true }

/-- `GaussianProcess::ComputeKernelMatrix` (`src/lib/GaussianProcess.cpp:404-417`):
the `n × n` Gram matrix; the kernel is evaluated only for `j ≥ i` and the
value is written to both `(i, j)` and `(j, i)`. -/
def ComputeKernelMatrix (ev : AtomicEval) (s : GPState) : Mat :=
  let n := s.m_SampleVectors.length
  mkMat n n (fun i j =>
    if i ≤ j then
      kEval ev s.m_Kernel (s.m_SampleVectors.getD i []) (s.m_SampleVectors.getD j [])
    else
      kEval ev s.m_Kernel (s.m_SampleVectors.getD j []) (s.m_SampleVectors.getD i []))

/-- The regularization loop of `ComputeRegressionVectors`
(`src/lib/GaussianProcess.cpp:447-450`): add the noise value to every
diagonal entry of the square matrix `K`. -/
def AddDiagonal (K : Mat) (sig : ℚ) : Mat :=
  mkMat K.length K.length (fun i j => entry K i j + if i = j then sig else 0)

/-- `GaussianProcess::ComputeLabelMatrix` (`src/lib/GaussianProcess.cpp:419-432`):
the `n × D_out` matrix whose row `i` is label vector `i`.  (Its emptiness
throw is unreachable from `Initialize`, which already checked the label
storage is non-empty.) -/
def ComputeLabelMatrix (s : GPState) : Mat :=
  mkMat s.m_LabelVectors.length (s.m_LabelVectors.getD 0 []).length
    (fun i j => (s.m_LabelVectors.getD i []).getD j 0)

/-- The inversion-strategy dispatch of `ComputeRegressionVectors`
(`src/lib/GaussianProcess.cpp:458-509`).  `FullPivotLU` is `K.inverse()`,
the direct inverse.  The three decomposition branches (`JacobiSVD`,
`BDCSVD`, `SelfAdjointEigenSolver`) build the same inverse through a
pseudo-inverse from reciprocal singular values or eigenvalues; on an
invertible matrix their exact-arithmetic value is the inverse.  The claims
under verification pin the strategy to `FullPivotLU`, the only branch this
embedding relies on. -/
def InvertMatrix : InvMethodType → Mat → Mat
  | InvMethodType.FullPivotLU, K => matInv K
  | InvMethodType.JacobiSVD, K => matInv K
  | InvMethodType.BDCSVD, K => matInv K
  | InvMethodType.SelfAdjointEigenSolver, K => matInv K

/-- `GaussianProcess::ComputeRegressionVectors`
(`src/lib/GaussianProcess.cpp:434-526`): build the Gram matrix, add the
noise value to its diagonal, invert via the selected strategy into
`m_CoreMatrix`, and set `m_RegressionVectors` to core matrix times label
matrix. -/
def ComputeRegressionVectors (ev : AtomicEval) (s : GPState) : GPState :=
  let K := ComputeKernelMatrix ev s
  let Kreg := AddDiagonal K s.m_Sigma
  let C := InvertMatrix s.m_InvMethod Kreg
  let Y := ComputeLabelMatrix s
  { s with m_CoreMatrix := C, m_RegressionVectors := matMul C Y }

/-- `GaussianProcess::Initialize` (`src/lib/GaussianProcess.cpp:112-125`):
no-op when the trained flag is set; throws (mapped to `UntrainedState`)
when the sample or the label storage is empty; otherwise recomputes the
core and regression matrices and sets the trained flag. -/
def Initialize (ev : AtomicEval) (s : GPState) : GPState × Option GPError :=
  if s.m_Initialized then (s, none)
  else if s.m_SampleVectors.length = 0 then (s, some GPError.UntrainedState)
  else if s.m_LabelVectors.length = 0 then (s, some GPError.UntrainedState)
  else ({ ComputeRegressionVectors ev s with m_Initialized := true }, none)

/-- `GaussianProcess::ComputeKernelVector` (`src/lib/GaussianProcess.cpp:528-540`):
the vector of kernel evaluations of `x` against the stored samples, sized
by the row count of `m_RegressionVectors` (which equals the sample count
whenever the cached state is consistent).  Its not-initialized throw is
unreachable from its call sites, which run it only after a successful
`Initialize`. -/
def ComputeKernelVector (ev : AtomicEval) (s : GPState) (x : Vec) : Vec :=
  mkVec s.m_RegressionVectors.length
    (fun i => kEval ev s.m_Kernel x (s.m_SampleVectors.getD i []))

/-- `GaussianProcess::Predict` (`src/lib/GaussianProcess.cpp:52-60`):
trigger `Initialize`, check the input dimension, return
`(Kx^T * m_RegressionVectors)^T`. -/
def Predict (ev : AtomicEval) (s : GPState) (x : Vec) : GPState × Except GPError Vec :=
  match Initialize ev s with
  | (s1, some e) => (s1, Except.error e)
  | (s1, none) =>
    if x.length ≠ s1.m_InputDimension then (s1, Except.error GPError.DimensionMismatch)
    else
      let Kx := ComputeKernelVector ev s1 x
      (s1, Except.ok (mkVec (cols s1.m_RegressionVectors) (fun j =>
        ((List.range Kx.length).map
          (fun i => Kx.getD i 0 * entry s1.m_RegressionVectors i j)).sum)))

/-- `GaussianProcess::operator()` (`src/lib/GaussianProcess.cpp:82-94`),
the RKHS scalar product: trigger `Initialize`, check both input
dimensions, return `kernel(x, y) - Kx^T * m_CoreMatrix * Ky`. -/
def ScalarProduct (ev : AtomicEval) (s : GPState) (x y : Vec) : GPState × Except GPError ℚ :=
  match Initialize ev s with
  | (s1, some e) => (s1, Except.error e)
  | (s1, none) =>
    if x.length ≠ s1.m_InputDimension then (s1, Except.error GPError.DimensionMismatch)
    else if y.length ≠ s1.m_InputDimension then (s1, Except.error GPError.DimensionMismatch)
    else
      let Kx := ComputeKernelVector ev s1 x
      let Ky := ComputeKernelVector ev s1 y
      (s1, Except.ok (kEval ev s1.m_Kernel x y -
        ((List.range Kx.length).map (fun i => Kx.getD i 0 *
          ((List.range Ky.length).map
            (fun j => entry s1.m_CoreMatrix i j * Ky.getD j 0)).sum)).sum))

/-- `GaussianProcess::GetCredibleInterval` (`src/lib/GaussianProcess.cpp:96-109`):
`2 * sqrt(max(0, (*this)(x, x)))`.  Its own `Initialize` and input check
are repeated by `operator()`, with identical outcome, so the embedding
routes through `ScalarProduct`.  The square root forces the result into
`ℝ`. -/
noncomputable def GetCredibleInterval (ev : AtomicEval) (s : GPState) (x : Vec) :
    GPState × Except GPError ℝ :=
  match ScalarProduct ev s x x with
  | (s1, Except.error e) => (s1, Except.error e)
  | (s1, Except.ok c) => (s1, Except.ok (2 * Real.sqrt (max (0 : ℝ) ((c : ℚ) : ℝ))))

/-- The one-line parameter file `<prefix>-ParameterFile.txt`
(`src/lib/GaussianProcess.cpp:163-176`), written at full scalar precision:
kernel type tag, parameter count, parameters, sigma, input dimension,
output dimension, debug flag.  The count field always equals the length of
the written parameter list, so the content is modelled structurally with
the count implicit. -/
structure ParamFileContent : Type where
  kernelTypeTag : String
  kernelParameters : List ℚ
  sigma : ℚ
  inputDim : Nat
  outputDim : Nat
  debugFlag : Bool
deriving DecidableEq, Repr

/-- The five companion files written by `Save`.  Modelled from the spec:
the text matrix writer/reader (`MatrixIO.h`, not among the three source
files) is required only to round-trip matrices at full scalar precision
(spec §1, §6), so a matrix file holds its matrix exactly. -/
structure SavedFiles : Type where
  regressionFile : Mat
  coreFile : Mat
  sampleFile : Mat
  labelFile : Mat
  parameterFile : ParamFileContent
deriving DecidableEq, Repr

/-- The file system visible to `Load`, keyed by the shared path prefix:
each of the five companion file names maps to its content when the file
exists (and is not a directory). -/
structure FileSystem : Type where
  regressionFile : Option Mat
  coreFile : Option Mat
  sampleFile : Option Mat
  labelFile : Option Mat
  parameterFile : Option ParamFileContent
deriving DecidableEq, Repr

/-- The file system produced by a successful `Save` under some prefix:
all five companion files exist with the saved contents. -/
def savedToFS (f : SavedFiles) : FileSystem :=
  { regressionFile := some f.regressionFile
    coreFile := some f.coreFile
    sampleFile := some f.sampleFile
    labelFile := some f.labelFile
    parameterFile := some f.parameterFile }

/-- The sample/label stacking of `Save` (`src/lib/GaussianProcess.cpp:150-161`):
a `d × n` matrix whose column `i` is vector `i`, `d` the length of the
first stored vector. -/
def StackColumns (vs : List Vec) : Mat :=
  mkMat (vs.getD 0 []).length vs.length (fun r i => (vs.getD i []).getD r 0)

/-- `GaussianProcess::Save` (`src/lib/GaussianProcess.cpp:128-177`):
throws (mapped to `UntrainedState`) when the trained flag is unset;
otherwise writes the five companion files and leaves every member
untouched (the function body contains no member assignment).  The first
component of the result is the object state after the call. -/
def Save (s : GPState) : GPState × Except GPError SavedFiles :=
  if s.m_Initialized = false then (s, Except.error GPError.UntrainedState)
  else
    (s, Except.ok
      { regressionFile := s.m_RegressionVectors
        coreFile := s.m_CoreMatrix
        sampleFile := StackColumns s.m_SampleVectors
        labelFile := StackColumns s.m_LabelVectors
        parameterFile :=
          { kernelTypeTag := tagOf s.m_Kernel
            kernelParameters := paramsOf s.m_Kernel
            sigma := s.m_Sigma
            inputDim := s.m_InputDimension
            outputDim := s.m_OutputDimension
            debugFlag := s.debug } })

/-- Modelled from the spec: `GaussianKernel::Load` (registered factory
constructor, `Kernel.h` not among the three source files): rebuilds the
kernel instance from its order-significant parameter vector (spec §4.2). -/
def GaussianKernelLoad (ps : List ℚ) : Except GPError KernelDesc :=
  Except.ok (KernelDesc.gaussian ps)

/-- Modelled from the spec: `PeriodicKernel::Load` (registered factory
constructor, `Kernel.h` not among the three source files). -/
def PeriodicKernelLoad (ps : List ℚ) : Except GPError KernelDesc :=
  Except.ok (KernelDesc.periodic ps)

/-- Modelled from the spec: the registered constructor for the composite
`SumKernel` (`Kernel.h` not among the three source files).  A flat
parameter vector does not determine the two child kernel variants; the
spec directs the caller to tokenize a composite tag and resolve each child
recursively before calling the factory (§4.2) and reserves the error kind
`UnimplementedCompositeKernel` for registry/tag resolution (§7), so the
direct composite constructor is modelled as failing with that kind. -/
def SumKernelLoad (_ps : List ℚ) : Except GPError KernelDesc :=
  Except.error GPError.UnimplementedCompositeKernel

/-- Modelled from the spec: the registered constructor for the composite
`ProductKernel`, failing like `SumKernelLoad`. -/
def ProductKernelLoad (_ps : List ℚ) : Except GPError KernelDesc :=
  Except.error GPError.UnimplementedCompositeKernel

/-- The factory map after `KernelFactory::RegisterKernels`
(`src/include/KernelFactory.h:73-78`): the four registered tags in
registration order. -/
def RegisteredKernelMap : List (String × (List ℚ → Except GPError KernelDesc)) :=
  [("GaussianKernel", GaussianKernelLoad),
   ("PeriodicKernel", PeriodicKernelLoad),
   ("SumKernel", SumKernelLoad),
   ("ProductKernel", ProductKernelLoad)]

/-- `m_Map->find(kernel_string)` on the registered map: `some` the mapped
constructor, or `none` past-the-end. -/
def FindRegistered (tag : String) :
    List (String × (List ℚ → Except GPError KernelDesc)) →
    Option (List ℚ → Except GPError KernelDesc)
  | [] => none
  | (k, v) :: rest => if k = tag then some v else FindRegistered tag rest

/-- `KernelFactory::Load` (`src/include/KernelFactory.h:68-71`): looks the
tag up in the map and immediately dereferences the iterator,
`(*it->second)(parameters)`, with no check against `end()`.  On a
registered tag the result is the registered constructor applied to the
parameters; on a missing tag the dereference is undefined behaviour,
modelled as `none`. -/
def KernelFactoryLoad (tag : String) (ps : List ℚ) : Option (Except GPError KernelDesc) :=
  match FindRegistered tag RegisteredKernelMap with
  | some ctor => some (ctor ps)
  | none => none

/-- Whether `pat` occurs at the start of `l` (character-list view). -/
def StartsWithList : List Char → List Char → Bool
  | [], _ => true
  | _ :: _, [] => false
  | a :: as, b :: bs => a = b && StartsWithList as bs

/-- Whether `pat` occurs as a contiguous substring of `l`:
`std::string::find(pat) != std::string::npos` on the character lists. -/
def ContainsList (pat : List Char) : List Char → Bool
  | [] => StartsWithList pat []
  | b :: bs => StartsWithList pat (b :: bs) || ContainsList pat bs

/-- `kernel_type.find(pat) != std::string::npos`
(`src/lib/GaussianProcess.cpp:288`). -/
def ContainsToken (s pat : String) : Bool :=
  ContainsList pat.data s.data

/-- Split a character list at every occurrence of the delimiter `c`; the
token list produced by repeated `std::getline(ss, tok, c)` until the
stream is exhausted (one token more than there are delimiters). -/
def SplitOnChar (c : Char) : List Char → List (List Char)
  | [] => [[]]
  | a :: rest =>
    match SplitOnChar c rest with
    | [] => [[a]]
    | h :: t => if a = c then [] :: h :: t else (a :: h) :: t

/-- The `#`-tokenization of a kernel type tag
(`src/lib/GaussianProcess.cpp:294-304`): three `std::getline(ss, _, '#')`
calls read the first three `#`-delimited tokens and ignore the rest; when
fewer than three tokens exist the failing `getline` raises the
`failed to tokanize kernel name string` throw (`TokenizeFailure`).  (The
first `getline` check on line 296 conjoins its two conditions with `&&`,
so it can only fire together with a failing read.) -/
def TokenizeSumTag (tag : String) : Except GPError (String × String × String) :=
  match SplitOnChar '#' tag.data with
  | t1 :: t2 :: t3 :: _ => Except.ok (String.mk t1, String.mk t2, String.mk t3)
  | _ => Except.error GPError.TokenizeFailure

/-- `GaussianProcess::Load` (`src/lib/GaussianProcess.cpp:179-318`).  The
five companion files are read in order (regression vectors, core matrix,
sample vectors, label vectors, parameter file); a missing file raises
`FileNotFound` and the reads already performed stay in the object.  The
parameter line assigns sigma, the dimensions and the debug flag directly
to the members.  The kernel tag then dispatches: `GaussianKernel` and
`PeriodicKernel` load through the factory; a tag containing `SumKernel`
is `#`-tokenized into the operator token and two sub-tags, the sub-tags
are discarded, and the factory is called once with the operator token and
the flat parameter list; any other tag raises
`kernel not recognized` (`UnknownKernelType`).  Only success sets the
trained flag (line 317).  The first component of the result is the object
state after the call, also when it throws. -/
def Load (fs : FileSystem) (s : GPState) : GPState × Option GPError :=
  match fs.regressionFile with
  | none => (s, some GPError.FileNotFound)
  | some regM =>
    let s1 := { s with m_RegressionVectors := regM }
    match fs.coreFile with
    | none => (s1, some GPError.FileNotFound)
    | some coreM =>
      let s2 := { s1 with m_CoreMatrix := coreM }
      match fs.sampleFile with
      | none => (s2, some GPError.FileNotFound)
      | some sampM =>
        let s3 := { s2 with m_SampleVectors :=
          (List.range (cols sampM)).map (fun i => sampM.map (fun row => row.getD i 0)) }
        match fs.labelFile with
        | none => (s3, some GPError.FileNotFound)
        | some labM =>
          let s4 := { s3 with m_LabelVectors :=
            (List.range (cols labM)).map (fun i => labM.map (fun row => row.getD i 0)) }
          match fs.parameterFile with
          | none => (s4, some GPError.FileNotFound)
          | some pf =>
            let s5 := { s4 with
                          m_Sigma := pf.sigma
                          m_InputDimension := pf.inputDim
                          m_OutputDimension := pf.outputDim
                          debug := pf.debugFlag }
            if pf.kernelTypeTag = "GaussianKernel" then
              match KernelFactoryLoad "GaussianKernel" pf.kernelParameters with
              | some (Except.ok k) => ({ s5 with m_Kernel := k, m_Initialized := true }, none)
              | some (Except.error e) => (s5, some e)
              | none => (s5, some GPError.FactoryLookupUndefined)
            else if pf.kernelTypeTag = "PeriodicKernel" then
              match KernelFactoryLoad "PeriodicKernel" pf.kernelParameters with
              | some (Except.ok k) => ({ s5 with m_Kernel := k, m_Initialized := true }, none)
              | some (Except.error e) => (s5, some e)
              | none => (s5, some GPError.FactoryLookupUndefined)
            else if ContainsToken pf.kernelTypeTag "SumKernel" then
              match TokenizeSumTag pf.kernelTypeTag with
              | Except.error e => (s5, some e)
              | Except.ok (opTok, _sub1, _sub2) =>
                match KernelFactoryLoad opTok pf.kernelParameters with
                | some (Except.ok k) => ({ s5 with m_Kernel := k, m_Initialized := true }, none)
                | some (Except.error e) => (s5, some e)
                | none => (s5, some GPError.FactoryLookupUndefined)
            else (s5, some GPError.UnknownKernelType)

/-- `GaussianProcess::operator==` (`src/lib/GaussianProcess.cpp:341-402`),
in comparison order: regression vectors, core matrix, sample count then
samples elementwise, label count then labels elementwise, kernel, sigma,
trained flag, input dimension, output dimension, debug flag.  A zero-norm
difference of equally-shaped exact matrices is entrywise (structural)
equality; kernel `operator!=` is spec §4.1 structural equality.  The
spec-modelled `m_InvMethod` is not compared. -/
def GPEqual (a b : GPState) : Bool :=
  if a.m_RegressionVectors ≠ b.m_RegressionVectors then false
  else if a.m_CoreMatrix ≠ b.m_CoreMatrix then false
  else if a.m_SampleVectors.length ≠ b.m_SampleVectors.length then false
  else if a.m_SampleVectors ≠ b.m_SampleVectors then false
  else if a.m_LabelVectors.length ≠ b.m_LabelVectors.length then false
  else if a.m_LabelVectors ≠ b.m_LabelVectors then false
  else if a.m_Kernel ≠ b.m_Kernel then false
  else if a.m_Sigma ≠ b.m_Sigma then false
  else if a.m_Initialized ≠ b.m_Initialized then false
  else if a.m_InputDimension ≠ b.m_InputDimension then false
  else if a.m_OutputDimension ≠ b.m_OutputDimension then false
  else if a.debug ≠ b.debug then false
  else true

/-- Consistency of the cached trained state with the current samples,
labels, kernel and noise (spec §3 invariant): the core matrix is the
inverted regularized Gram matrix of the current data and the regression
matrix is core matrix times label matrix, exactly as `Initialize` would
recompute them. -/
def ModelConsistent (ev : AtomicEval) (s : GPState) : Prop :=
  s.m_CoreMatrix =
    InvertMatrix s.m_InvMethod (AddDiagonal (ComputeKernelMatrix ev s) s.m_Sigma) ∧
  s.m_RegressionVectors = matMul s.m_CoreMatrix (ComputeLabelMatrix s)

/-- Engine states reachable through the public mutating interface other
than `Load` (construction, `AddSample`, `SetSigma`, `DebugOn`,
`Initialize`; `Load` replaces the whole state with trusted file contents
and is treated separately by the claims). -/
inductive Reachable (ev : AtomicEval) : GPState → Prop where
  | new (k : KernelDesc) (im : InvMethodType) : Reachable ev (NewGaussianProcess k im)
  | add (s : GPState) (x y : Vec) : Reachable ev s → Reachable ev (AddSample s x y).1
  | sigma (s : GPState) (v : ℚ) : Reachable ev s → Reachable ev (SetSigma s v)
  | dbg (s : GPState) : Reachable ev s → Reachable ev (DebugOn s)
  | init (s : GPState) : Reachable ev s → Reachable ev (Initialize ev s).1

/-- A registered atomic kernel variant (spec §6: `GaussianKernel` or
`PeriodicKernel`). -/
def IsAtomicKernel (k : KernelDesc) : Prop :=
  (∃ ps, k = KernelDesc.gaussian ps) ∨ (∃ ps, k = KernelDesc.periodic ps)

/-- A concrete atomic-kernel semantics used by closed witnesses and
counterexamples: every atomic kernel evaluates to the constant 1 (the
engine is generic over the atomic evaluation functions, so any choice
instantiates it). -/
def evOne : AtomicEval :=
  { gaussEval := fun _ _ _ => 1
    periodicEval := fun _ _ _ => 1 }

/-- The round-trip property of the spec (§8): saving a trained engine and
loading the files into a fresh engine succeeds and yields an engine
structurally equal (`operator==`) to the original. -/
def RoundTripOK (E fresh : GPState) : Prop :=
  ∃ f, (Save E).2 = Except.ok f ∧
    (Load (savedToFS f) fresh).2 = none ∧
    GPEqual ((Load (savedToFS f) fresh).1) E = true

/-- A freshly constructed engine used as a load target by concrete
counterexamples and witnesses. -/
def freshEngine : GPState :=
  NewGaussianProcess (KernelDesc.gaussian []) InvMethodType.FullPivotLU

/-- A concrete prior engine state for the `Load`-failure counterexample:
sigma 5, one sample/label pair, trained. -/
def cex2Prior : GPState :=
  { m_Kernel := KernelDesc.gaussian [3]
    m_Sigma := 5
    m_SampleVectors := [[1]]
    m_LabelVectors := [[1]]
    m_RegressionVectors := [[1]]
    m_CoreMatrix := [[1]]
    m_Initialized := true
    m_InputDimension := 1
    m_OutputDimension := 1
    debug := false
    m_InvMethod := InvMethodType.FullPivotLU }

/-- A concrete file system whose five companion files exist and whose
parameter file declares the unregistered tag `UnknownKernel` and a sigma
value (7) different from `cex2Prior`'s. -/
def cex2FS : FileSystem :=
  { regressionFile := some [[4]]
    coreFile := some [[4]]
    sampleFile := some [[4]]
    labelFile := some [[4]]
    parameterFile := some
      { kernelTypeTag := "UnknownKernel"
        kernelParameters := []
        sigma := 7
        inputDim := 2
        outputDim := 2
        debugFlag := true } }

/-- A concrete file system whose five companion files exist and whose
parameter file declares a `ProductKernel` composite tag. -/
def cex3FS : FileSystem :=
  { regressionFile := some [[1]]
    coreFile := some [[1]]
    sampleFile := some [[1]]
    labelFile := some [[1]]
    parameterFile := some
      { kernelTypeTag := "ProductKernel#GaussianKernel#GaussianKernel"
        kernelParameters := [1, 1]
        sigma := 0
        inputDim := 1
        outputDim := 1
        debugFlag := false } }

/-- A one-level `SumKernel` engine after one `AddSample` call. -/
def sumEngineDirty : GPState :=
  (AddSample
    (NewGaussianProcess
      (KernelDesc.sum (KernelDesc.gaussian [1]) (KernelDesc.periodic [1]))
      InvMethodType.FullPivotLU)
    [1] [1]).1

/-- The `SumKernel` engine of `sumEngineDirty` after a successful
`Initialize`: a trained engine whose trained flag was set by
`Initialize`. -/
def sumEngineTrained : GPState :=
  (Initialize evOne sumEngineDirty).1

/-- A concrete trained engine with an atomic (Gaussian) kernel, used by
the round-trip witness. -/
def atomicTrainedEngine : GPState :=
  { m_Kernel := KernelDesc.gaussian [1]
    m_Sigma := 1
    m_SampleVectors := [[2]]
    m_LabelVectors := [[3]]
    m_RegressionVectors := [[3/2]]
    m_CoreMatrix := [[1/2]]
    m_Initialized := true
    m_InputDimension := 1
    m_OutputDimension := 1
    debug := false
    m_InvMethod := InvMethodType.FullPivotLU }

/-- A Gaussian-kernel engine after one `AddSample` call, used by the
trained-flag counterexample. -/
def gaussEngineDirty : GPState :=
  (AddSample (NewGaussianProcess (KernelDesc.gaussian []) InvMethodType.FullPivotLU) [1] [1]).1

/-- `gaussEngineDirty` after a successful `Initialize`: trained and
consistent. -/
def gaussEngineTrained : GPState :=
  (Initialize evOne gaussEngineDirty).1

/-- `gaussEngineTrained` after `SetSigma` with the value the noise already
has (0): the trained flag is cleared although the cached matrices are
still consistent with the current data. -/
def gaussEngineResigma : GPState :=
  SetSigma gaussEngineTrained 0

theorem getD_map_range {α : Type} (n : Nat) (g : Nat → α) (i : Nat) (d : α) (h : i < n) :
    ((List.range n).map g).getD i d = g i := by
  rw [List.getD_eq_getElem?_getD, List.getElem?_map, List.getElem?_range h]
  rfl

theorem getD_eq_getElem_of_lt {α : Type} (l : List α) (i : Nat) (d : α) (h : i < l.length) :
    l.getD i d = l[i] := by
  rw [List.getD_eq_getElem?_getD, List.getElem?_eq_getElem h]
  rfl

theorem map_range_getD {α : Type} (v : List α) (d : α) :
    (List.range v.length).map (fun i => v.getD i d) = v := by
  apply List.ext_getElem
  · simp
  · intro i h1 h2
    simp only [List.getElem_map, List.getElem_range]
    exact getD_eq_getElem_of_lt v i d h2

theorem length_mkMat (n m : Nat) (f : Nat → Nat → ℚ) : (mkMat n m f).length = n := by
  simp [mkMat]

theorem entry_mkMat (n m : Nat) (f : Nat → Nat → ℚ) (i j : Nat) (hi : i < n) (hj : j < m) :
    entry (mkMat n m f) i j = f i j := by
  unfold entry mkMat
  rw [getD_map_range n _ i [] hi, getD_map_range m _ j 0 hj]

theorem cols_mkMat (n m : Nat) (f : Nat → Nat → ℚ) (h : 0 < n) :
    cols (mkMat n m f) = m := by
  unfold cols mkMat
  rw [getD_map_range n _ 0 [] h]
  simp

theorem length_mkVec (n : Nat) (f : Nat → ℚ) : (mkVec n f).length = n := by
  simp [mkVec]

theorem getD_mkVec (n : Nat) (f : Nat → ℚ) (i : Nat) (h : i < n) :
    (mkVec n f).getD i 0 = f i :=
  getD_map_range n f i 0 h

theorem toM_matInv (A : Mat) : toM A.length (matInv A) = (toM A.length A)⁻¹ := by
  rw [Matrix.inv_def, Ring.inverse_eq_inv]
  by_cases hd : (toM A.length A).det = 0
  · ext i j
    rw [hd, inv_zero, zero_smul]
    show entry (matInv A) i.1 j.1 = 0
    rw [matInv, if_pos hd, entry_mkMat _ _ _ _ _ i.2 j.2]
  · ext i j
    show entry (matInv A) i.1 j.1 = _
    rw [matInv, if_neg hd, entry_mkMat _ _ _ _ _ i.2 j.2]
    rw [dif_pos (And.intro i.2 j.2)]
    simp [Matrix.smul_apply, smul_eq_mul]

theorem matInv_mul_self (A : Mat) (h : (toM A.length A).det ≠ 0) :
    toM A.length (matInv A) * toM A.length A = 1 := by
  rw [toM_matInv]
  exact Matrix.nonsing_inv_mul _ (isUnit_iff_ne_zero.mpr h)

theorem self_mul_matInv (A : Mat) (h : (toM A.length A).det ≠ 0) :
    toM A.length A * toM A.length (matInv A) = 1 := by
  rw [toM_matInv]
  exact Matrix.mul_nonsing_inv _ (isUnit_iff_ne_zero.mpr h)

theorem length_ComputeKernelMatrix (ev : AtomicEval) (s : GPState) :
    (ComputeKernelMatrix ev s).length = s.m_SampleVectors.length :=
  length_mkMat _ _ _

theorem length_AddDiagonal (K : Mat) (sig : ℚ) : (AddDiagonal K sig).length = K.length :=
  length_mkMat _ _ _

theorem stack_extract (vs : List Vec)
    (hd : 0 < (vs.getD 0 []).length)
    (hall : ∀ v ∈ vs, v.length = (vs.getD 0 []).length) :
    (List.range (cols (StackColumns vs))).map
      (fun i => (StackColumns vs).map (fun row => row.getD i 0)) = vs := by
  unfold StackColumns
  rw [cols_mkMat _ _ _ hd]
  apply List.ext_getElem
  · simp
  · intro i h1 h2
    rw [List.getElem_map, List.getElem_range]
    unfold mkMat
    rw [List.map_map]
    have hrw : ∀ r ∈ List.range (vs.getD 0 []).length,
        (((List.range vs.length).map (fun j => (vs.getD j []).getD r 0)).getD i 0) =
          (vs.getD i []).getD r 0 := by
      intro r _
      exact getD_map_range vs.length _ i 0 h2
    calc ((List.range (vs.getD 0 []).length).map
            ((fun row => row.getD i 0) ∘ (fun r => (List.range vs.length).map
              (fun j => (vs.getD j []).getD r 0))))
        = (List.range (vs.getD 0 []).length).map (fun r => (vs.getD i []).getD r 0) := by
          exact List.map_congr_left hrw
      _ = vs[i] := by
          rw [getD_eq_getElem_of_lt vs i [] h2]
          have hlen : (vs[i]).length = (vs.getD 0 []).length :=
            hall _ (List.getElem_mem h2)
          rw [← hlen]
          exact map_range_getD _ 0

/-- C10: `Save` never modifies the engine: the object state after the call
is the state before it, both when `Save` succeeds on a trained engine and
when it fails with `UntrainedState` on an untrained one. -/
theorem C10_save_frame (s : GPState) :
    (Save s).1 = s ∧
    (s.m_Initialized = false → (Save s).2 = Except.error GPError.UntrainedState) ∧
    (s.m_Initialized = true → ∃ f, (Save s).2 = Except.ok f) := by
  refine ⟨?_, ?_, ?_⟩
  · unfold Save
    by_cases h : s.m_Initialized = false
    · rw [if_pos h]
    · rw [if_neg h]
  · intro h
    unfold Save
    rw [if_pos h]
  · intro h
    unfold Save
    rw [if_neg (by simp [h])]
    exact ⟨_, rfl⟩

/-- Witness for C10 at a concrete untrained engine. -/
theorem C10_save_frame_witness :
    (Save freshEngine).1 = freshEngine ∧
    (Save freshEngine).2 = Except.error GPError.UntrainedState :=
  ⟨(C10_save_frame freshEngine).1, (C10_save_frame freshEngine).2.1 rfl⟩

/-- C8: the first `AddSample` call (empty sample and label storage) fixes
the input and output dimensions from its arguments, appends, and clears
the trained flag; every subsequent call with a wrongly sized input or
label fails with `DimensionMismatch` leaving the whole state unchanged,
and every accepted call appends the pair and clears the trained flag. -/
theorem C8_addsample_dimensions (s : GPState) (x y : Vec) :
    (s.m_SampleVectors = [] → s.m_LabelVectors = [] →
      (AddSample s x y).2 = none ∧
      (AddSample s x y).1 =
        { s with m_InputDimension := x.length
                 m_OutputDimension := y.length
                 m_SampleVectors := s.m_SampleVectors ++ [x]
                 m_LabelVectors := s.m_LabelVectors ++ [y]
                 m_Initialized := false }) ∧
    (s.m_SampleVectors ≠ [] → s.m_LabelVectors ≠ [] →
      ((x.length ≠ s.m_InputDimension ∨ y.length ≠ s.m_OutputDimension) →
        (AddSample s x y).2 = some GPError.DimensionMismatch ∧ (AddSample s x y).1 = s) ∧
      (x.length = s.m_InputDimension → y.length = s.m_OutputDimension →
        (AddSample s x y).2 = none ∧
        (AddSample s x y).1 =
          { s with m_SampleVectors := s.m_SampleVectors ++ [x]
                   m_LabelVectors := s.m_LabelVectors ++ [y]
                   m_Initialized := false })) := by
  constructor
  · intro hs hl
    unfold AddSample
    simp [hs, hl]
  · intro hs hl
    have hs0 : ¬ s.m_SampleVectors.length = 0 := by
      simpa [List.length_eq_zero] using hs
    have hl0 : ¬ s.m_LabelVectors.length = 0 := by
      simpa [List.length_eq_zero] using hl
    constructor
    · intro hbad
      rcases hbad with hx | hy
      · constructor
        · simp [AddSample, hs0, hl0, hx]
        · simp [AddSample, hs0, hl0, hx]
      · by_cases hx : List.length x ≠ s.m_InputDimension
        · constructor
          · simp [AddSample, hs0, hl0, hx]
          · simp [AddSample, hs0, hl0, hx]
        · constructor
          · simp [AddSample, hs0, hl0, hx, hy]
          · simp [AddSample, hs0, hl0, hx, hy]
    · intro hx hy
      constructor
      · simp [AddSample, hs0, hl0, hx, hy]
      · simp [AddSample, hs0, hl0, hx, hy]

/-- Witness for C8 at concrete inputs: a first call on a fresh engine and
a mismatched second call. -/
theorem C8_addsample_dimensions_witness :
    (AddSample freshEngine [1] [2]).2 = none ∧
    (AddSample (AddSample freshEngine [1] [2]).1 [1, 1] [2]).2 =
      some GPError.DimensionMismatch ∧
    (AddSample (AddSample freshEngine [1] [2]).1 [1, 1] [2]).1 =
      (AddSample freshEngine [1] [2]).1 := by
  refine ⟨((C8_addsample_dimensions freshEngine [1] [2]).1 rfl rfl).1, ?_⟩
  have h2 := ((C8_addsample_dimensions (AddSample freshEngine [1] [2]).1 [1, 1] [2]).2
    (by decide) (by decide)).1 (Or.inl (by decide))
  exact h2

/-- C4: `KernelFactory::Load` on a tag absent from the registered map does
not fail explicitly with `UnknownKernelType`: it dereferences the missing
map entry (`(*it->second)` on the past-the-end iterator), which is
undefined behaviour, modelled as `none`; on each registered tag it returns
the registered constructor applied to the parameters. -/
theorem C4_factory_missing_key (ps : List ℚ) :
    KernelFactoryLoad "UnknownKernel" ps = none ∧
    KernelFactoryLoad "GaussianKernel" ps = some (Except.ok (KernelDesc.gaussian ps)) ∧
    KernelFactoryLoad "PeriodicKernel" ps = some (Except.ok (KernelDesc.periodic ps)) ∧
    KernelFactoryLoad "SumKernel" ps =
      some (Except.error GPError.UnimplementedCompositeKernel) ∧
    KernelFactoryLoad "ProductKernel" ps =
      some (Except.error GPError.UnimplementedCompositeKernel) :=
  ⟨rfl, rfl, rfl, rfl, rfl⟩

/-- C2 (amended): when the five companion files exist and the parameter
file declares a tag that is neither `GaussianKernel` nor `PeriodicKernel`
and does not contain `SumKernel` (for example `UnknownKernel`), `Load`
fails with `UnknownKernelType`, but the target engine is not left in its
prior state: its regression vectors, core matrix, sample list, label
list, sigma, dimensions and debug flag have already been overwritten with
the file contents; only the kernel and the trained flag (and the
uncompared inversion strategy) keep their prior values. -/
theorem C2_load_unknown_tag (s : GPState) (fs : FileSystem)
    (regM coreM sampM labM : Mat) (pf : ParamFileContent)
    (hfr : fs.regressionFile = some regM)
    (hfc : fs.coreFile = some coreM)
    (hfsamp : fs.sampleFile = some sampM)
    (hflab : fs.labelFile = some labM)
    (hfp : fs.parameterFile = some pf)
    (h1 : pf.kernelTypeTag ≠ "GaussianKernel")
    (h2 : pf.kernelTypeTag ≠ "PeriodicKernel")
    (h3 : ContainsToken pf.kernelTypeTag "SumKernel" = false) :
    (Load fs s).2 = some GPError.UnknownKernelType ∧
    (Load fs s).1.m_Kernel = s.m_Kernel ∧
    (Load fs s).1.m_Initialized = s.m_Initialized ∧
    (Load fs s).1.m_RegressionVectors = regM ∧
    (Load fs s).1.m_CoreMatrix = coreM ∧
    (Load fs s).1.m_SampleVectors =
      (List.range (cols sampM)).map (fun i => sampM.map (fun row => row.getD i 0)) ∧
    (Load fs s).1.m_LabelVectors =
      (List.range (cols labM)).map (fun i => labM.map (fun row => row.getD i 0)) ∧
    (Load fs s).1.m_Sigma = pf.sigma ∧
    (Load fs s).1.m_InputDimension = pf.inputDim ∧
    (Load fs s).1.m_OutputDimension = pf.outputDim ∧
    (Load fs s).1.debug = pf.debugFlag := by
  have hload : Load fs s =
      ({ s with m_RegressionVectors := regM
                m_CoreMatrix := coreM
                m_SampleVectors :=
                  (List.range (cols sampM)).map (fun i => sampM.map (fun row => row.getD i 0))
                m_LabelVectors :=
                  (List.range (cols labM)).map (fun i => labM.map (fun row => row.getD i 0))
                m_Sigma := pf.sigma
                m_InputDimension := pf.inputDim
                m_OutputDimension := pf.outputDim
                debug := pf.debugFlag }, some GPError.UnknownKernelType) := by
    simp [Load, hfr, hfc, hfsamp, hflab, hfp, h1, h2, h3]
  rw [hload]
  exact ⟨rfl, rfl, rfl, rfl, rfl, rfl, rfl, rfl, rfl, rfl, rfl⟩

/-- Witness for C2 at the concrete prior engine `cex2Prior` and file
system `cex2FS`. -/
theorem C2_load_unknown_tag_witness :
    (Load cex2FS cex2Prior).2 = some GPError.UnknownKernelType ∧
    (Load cex2FS cex2Prior).1.m_Kernel = cex2Prior.m_Kernel ∧
    (Load cex2FS cex2Prior).1.m_Initialized = cex2Prior.m_Initialized ∧
    (Load cex2FS cex2Prior).1.m_Sigma = 7 := by
  have h := C2_load_unknown_tag cex2Prior cex2FS [[4]] [[4]] [[4]] [[4]]
    { kernelTypeTag := "UnknownKernel"
      kernelParameters := []
      sigma := 7
      inputDim := 2
      outputDim := 2
      debugFlag := true }
    rfl rfl rfl rfl rfl (by decide) (by decide) (by decide)
  exact ⟨h.1, h.2.1, h.2.2.1, h.2.2.2.2.2.2.2.1⟩

/-- Counterexample to C2 as stated: at the concrete prior engine
`cex2Prior` (sigma 5) and the concrete file system `cex2FS` (all five
files present, tag `UnknownKernel`, file sigma 7), `Load` fails with
`UnknownKernelType` but the engine is not left as it was: its sigma is now
the file value 7. -/
theorem C2_counterexample :
    (Load cex2FS cex2Prior).2 = some GPError.UnknownKernelType ∧
    cex2Prior.m_Sigma = 5 ∧
    (Load cex2FS cex2Prior).1.m_Sigma = 7 ∧
    (Load cex2FS cex2Prior).1 ≠ cex2Prior := by
  exact ⟨by decide, rfl, by decide, by decide⟩

theorem factory_sum_eval (ps : List ℚ) :
    KernelFactoryLoad "SumKernel" ps =
      some (Except.error GPError.UnimplementedCompositeKernel) := rfl

theorem Load_sumkernel_token (s : GPState) (fs : FileSystem)
    (regM coreM sampM labM : Mat) (pf : ParamFileContent)
    (hfr : fs.regressionFile = some regM)
    (hfc : fs.coreFile = some coreM)
    (hfsamp : fs.sampleFile = some sampM)
    (hflab : fs.labelFile = some labM)
    (hfp : fs.parameterFile = some pf)
    (h1 : pf.kernelTypeTag ≠ "GaussianKernel")
    (h2 : pf.kernelTypeTag ≠ "PeriodicKernel")
    (h3 : ContainsToken pf.kernelTypeTag "SumKernel" = true)
    (t2 t3 : String)
    (htok : TokenizeSumTag pf.kernelTypeTag = Except.ok ("SumKernel", t2, t3)) :
    Load fs s =
      ({ s with m_RegressionVectors := regM
                m_CoreMatrix := coreM
                m_SampleVectors :=
                  (List.range (cols sampM)).map (fun i => sampM.map (fun row => row.getD i 0))
                m_LabelVectors :=
                  (List.range (cols labM)).map (fun i => labM.map (fun row => row.getD i 0))
                m_Sigma := pf.sigma
                m_InputDimension := pf.inputDim
                m_OutputDimension := pf.outputDim
                debug := pf.debugFlag }, some GPError.UnimplementedCompositeKernel) := by
  simp [Load, hfr, hfc, hfsamp, hflab, hfp, h1, h2, h3, htok, factory_sum_eval]

/-- C3 (amended): on `Load`, a `SumKernel#<left>#<right>` tag is
`#`-tokenized into the `SumKernel` token and exactly two sub-tags, but the
sub-tags are not recursively resolved through the registry: they are
discarded (loading tags that differ only in their sub-tags gives
identical results), and the factory is invoked exactly once, with the
`SumKernel` token and the flat parameter list, where the spec-modelled
composite constructor fails with `UnimplementedCompositeKernel`.  A
`ProductKernel` composite tag is not parsed by the `#`-delimited scheme:
it falls through to the `kernel not recognized` rejection
(see the counterexample). -/
theorem C3_sum_tag_tokenization (s : GPState) (regM coreM sampM labM : Mat)
    (ps : List ℚ) (sg : ℚ) (di dO : Nat) (db : Bool) :
    TokenizeSumTag "SumKernel#GaussianKernel#PeriodicKernel" =
      Except.ok ("SumKernel", "GaussianKernel", "PeriodicKernel") ∧
    Load { regressionFile := some regM
           coreFile := some coreM
           sampleFile := some sampM
           labelFile := some labM
           parameterFile := some
             { kernelTypeTag := "SumKernel#GaussianKernel#PeriodicKernel"
               kernelParameters := ps
               sigma := sg
               inputDim := di
               outputDim := dO
               debugFlag := db } } s =
      Load { regressionFile := some regM
             coreFile := some coreM
             sampleFile := some sampM
             labelFile := some labM
             parameterFile := some
               { kernelTypeTag := "SumKernel#PeriodicKernel#GaussianKernel"
                 kernelParameters := ps
                 sigma := sg
                 inputDim := di
                 outputDim := dO
                 debugFlag := db } } s ∧
    (Load { regressionFile := some regM
            coreFile := some coreM
            sampleFile := some sampM
            labelFile := some labM
            parameterFile := some
              { kernelTypeTag := "SumKernel#GaussianKernel#PeriodicKernel"
                kernelParameters := ps
                sigma := sg
                inputDim := di
                outputDim := dO
                debugFlag := db } } s).2 =
      some GPError.UnimplementedCompositeKernel := by
  have hA := Load_sumkernel_token s
    { regressionFile := some regM
      coreFile := some coreM
      sampleFile := some sampM
      labelFile := some labM
      parameterFile := some
        { kernelTypeTag := "SumKernel#GaussianKernel#PeriodicKernel"
          kernelParameters := ps
          sigma := sg
          inputDim := di
          outputDim := dO
          debugFlag := db } }
    regM coreM sampM labM
    { kernelTypeTag := "SumKernel#GaussianKernel#PeriodicKernel"
      kernelParameters := ps
      sigma := sg
      inputDim := di
      outputDim := dO
      debugFlag := db }
    rfl rfl rfl rfl rfl
    (show ("SumKernel#GaussianKernel#PeriodicKernel" : String) ≠ "GaussianKernel" by decide)
    (show ("SumKernel#GaussianKernel#PeriodicKernel" : String) ≠ "PeriodicKernel" by decide)
    (show ContainsToken "SumKernel#GaussianKernel#PeriodicKernel" "SumKernel" = true by decide)
    "GaussianKernel" "PeriodicKernel"
    (show TokenizeSumTag "SumKernel#GaussianKernel#PeriodicKernel" =
      Except.ok ("SumKernel", "GaussianKernel", "PeriodicKernel") from rfl)
  have hB := Load_sumkernel_token s
    { regressionFile := some regM
      coreFile := some coreM
      sampleFile := some sampM
      labelFile := some labM
      parameterFile := some
        { kernelTypeTag := "SumKernel#PeriodicKernel#GaussianKernel"
          kernelParameters := ps
          sigma := sg
          inputDim := di
          outputDim := dO
          debugFlag := db } }
    regM coreM sampM labM
    { kernelTypeTag := "SumKernel#PeriodicKernel#GaussianKernel"
      kernelParameters := ps
      sigma := sg
      inputDim := di
      outputDim := dO
      debugFlag := db }
    rfl rfl rfl rfl rfl
    (show ("SumKernel#PeriodicKernel#GaussianKernel" : String) ≠ "GaussianKernel" by decide)
    (show ("SumKernel#PeriodicKernel#GaussianKernel" : String) ≠ "PeriodicKernel" by decide)
    (show ContainsToken "SumKernel#PeriodicKernel#GaussianKernel" "SumKernel" = true by decide)
    "PeriodicKernel" "GaussianKernel"
    (show TokenizeSumTag "SumKernel#PeriodicKernel#GaussianKernel" =
      Except.ok ("SumKernel", "PeriodicKernel", "GaussianKernel") from rfl)
  refine ⟨rfl, ?_, ?_⟩
  · rw [hA, hB]
  · rw [hA]

/-- Counterexample for C3: a `ProductKernel` composite tag is not parsed
by the `#`-delimited scheme: at the concrete file system `cex3FS`
(tag `ProductKernel#GaussianKernel#GaussianKernel`), `Load` rejects it
with the `kernel not recognized` error (`UnknownKernelType`) and
constructs no kernel. -/
theorem C3_counterexample :
    (Load cex3FS freshEngine).2 = some GPError.UnknownKernelType ∧
    (Load cex3FS freshEngine).1.m_Kernel = freshEngine.m_Kernel := by
  exact ⟨by decide, by decide⟩

theorem Initialize_of_trained (ev : AtomicEval) (s : GPState) (h : s.m_Initialized = true) :
    Initialize ev s = (s, none) := by
  unfold Initialize
  rw [if_pos h]

theorem Initialize_of_empty (ev : AtomicEval) (s : GPState)
    (h1 : s.m_Initialized = false)
    (h2 : s.m_SampleVectors = [] ∨ s.m_LabelVectors = []) :
    Initialize ev s = (s, some GPError.UntrainedState) := by
  unfold Initialize
  rw [if_neg (by simp [h1])]
  rcases h2 with h | h
  · rw [if_pos (by simp [h])]
  · by_cases hs : s.m_SampleVectors.length = 0
    · rw [if_pos hs]
    · rw [if_neg hs, if_pos (by simp [h])]

theorem Initialize_of_untrained (ev : AtomicEval) (s : GPState)
    (h1 : s.m_Initialized = false)
    (hs : s.m_SampleVectors ≠ [])
    (hl : s.m_LabelVectors ≠ []) :
    Initialize ev s = ({ ComputeRegressionVectors ev s with m_Initialized := true }, none) := by
  unfold Initialize
  rw [if_neg (by simp [h1]), if_neg (by simp [List.length_eq_zero, hs]),
      if_neg (by simp [List.length_eq_zero, hl])]

theorem AddSample_eq (s : GPState) (x y : Vec) :
    AddSample s x y =
      if x.length ≠ (if s.m_SampleVectors.length = 0 then x.length else s.m_InputDimension) then
        ({ s with
             m_InputDimension :=
               if s.m_SampleVectors.length = 0 then x.length else s.m_InputDimension
             m_OutputDimension :=
               if s.m_LabelVectors.length = 0 then y.length else s.m_OutputDimension },
         some GPError.DimensionMismatch)
      else if y.length ≠ (if s.m_LabelVectors.length = 0 then y.length else s.m_OutputDimension) then
        ({ s with
             m_InputDimension :=
               if s.m_SampleVectors.length = 0 then x.length else s.m_InputDimension
             m_OutputDimension :=
               if s.m_LabelVectors.length = 0 then y.length else s.m_OutputDimension },
         some GPError.DimensionMismatch)
      else
        ({ s with
             m_InputDimension :=
               if s.m_SampleVectors.length = 0 then x.length else s.m_InputDimension
             m_OutputDimension :=
               if s.m_LabelVectors.length = 0 then y.length else s.m_OutputDimension
             m_SampleVectors := s.m_SampleVectors ++ [x]
             m_LabelVectors := s.m_LabelVectors ++ [y]
             m_Initialized := false }, none) := by
  unfold AddSample
  by_cases hs : s.m_SampleVectors.length = 0 <;>
    by_cases hl : s.m_LabelVectors.length = 0 <;>
      simp [hs, hl]

theorem AddSample_cases (s : GPState) (x y : Vec) :
    ((AddSample s x y).2 = none ∧ (AddSample s x y).1.m_Initialized = false) ∨
    ((AddSample s x y).2 = some GPError.DimensionMismatch ∧
      (AddSample s x y).1 =
        { s with
            m_InputDimension :=
              if s.m_SampleVectors.length = 0 then x.length else s.m_InputDimension
            m_OutputDimension :=
              if s.m_LabelVectors.length = 0 then y.length else s.m_OutputDimension }) := by
  rw [AddSample_eq]
  by_cases h1 : x.length ≠ (if s.m_SampleVectors.length = 0 then x.length else s.m_InputDimension)
  · rw [if_pos h1]
    exact Or.inr ⟨rfl, rfl⟩
  · rw [if_neg h1]
    by_cases h2 : y.length ≠ (if s.m_LabelVectors.length = 0 then y.length else s.m_OutputDimension)
    · rw [if_pos h2]
      exact Or.inr ⟨rfl, rfl⟩
    · rw [if_neg h2]
      exact Or.inl ⟨rfl, rfl⟩

theorem ModelConsistent_of_fields (ev : AtomicEval) (a b : GPState)
    (hc : a.m_CoreMatrix = b.m_CoreMatrix)
    (hr : a.m_RegressionVectors = b.m_RegressionVectors)
    (hs : a.m_SampleVectors = b.m_SampleVectors)
    (hl : a.m_LabelVectors = b.m_LabelVectors)
    (hsig : a.m_Sigma = b.m_Sigma)
    (hk : a.m_Kernel = b.m_Kernel)
    (him : a.m_InvMethod = b.m_InvMethod)
    (h : ModelConsistent ev b) : ModelConsistent ev a := by
  unfold ModelConsistent ComputeKernelMatrix ComputeLabelMatrix at h ⊢
  rw [hc, hr, hs, hl, hsig, hk, him]
  exact h

/-- C9 (amended): for every engine reachable through the mutating
interface other than `Load`, a set trained flag implies the cached core
and regression matrices are consistent with the current samples, labels,
kernel and noise (the converse direction of the claimed `iff` fails, see
the counterexample); every accepted `AddSample` clears the flag and a
rejected one leaves it unchanged; `SetSigma` always clears it;
`Initialize` is a no-op on a trained engine, fails with `UntrainedState`
on empty sample or label storage, and otherwise recomputes the core and
regression matrices in full before setting the flag. -/
theorem C9_trained_flag_invariant (ev : AtomicEval) :
    (∀ s, Reachable ev s → s.m_Initialized = true → ModelConsistent ev s) ∧
    (∀ s x y, (AddSample s x y).2 = none → (AddSample s x y).1.m_Initialized = false) ∧
    (∀ s x y, (AddSample s x y).2 ≠ none →
      (AddSample s x y).1.m_Initialized = s.m_Initialized) ∧
    (∀ s v, (SetSigma s v).m_Initialized = false) ∧
    (∀ s, s.m_Initialized = true → Initialize ev s = (s, none)) ∧
    (∀ s, s.m_Initialized = false → (s.m_SampleVectors = [] ∨ s.m_LabelVectors = []) →
      Initialize ev s = (s, some GPError.UntrainedState)) ∧
    (∀ s, s.m_Initialized = false → s.m_SampleVectors ≠ [] → s.m_LabelVectors ≠ [] →
      Initialize ev s =
        ({ ComputeRegressionVectors ev s with m_Initialized := true }, none)) := by
  refine ⟨?_, ?_, ?_, ?_, ?_, ?_, ?_⟩
  · intro s hr
    induction hr with
    | new k im =>
      intro h
      exact absurd h (by simp [NewGaussianProcess])
    | add s x y _ ih =>
      intro h
      rcases AddSample_cases s x y with ⟨_, h1⟩ | ⟨_, h1⟩
      · rw [h1] at h
        exact absurd h (by simp)
      · rw [h1] at h ⊢
        exact ModelConsistent_of_fields ev _ s rfl rfl rfl rfl rfl rfl rfl (ih h)
    | sigma s v _ _ =>
      intro h
      exact absurd h (by simp [SetSigma])
    | dbg s _ ih =>
      intro h
      have h2 : (DebugOn s).m_Initialized = s.m_Initialized := rfl
      rw [h2] at h
      exact ModelConsistent_of_fields ev _ s rfl rfl rfl rfl rfl rfl rfl (ih h)
    | init s _ ih =>
      intro h
      by_cases ht : s.m_Initialized = true
      · rw [Initialize_of_trained ev s ht]
        exact ih ht
      · have hf : s.m_Initialized = false := by
          cases hb : s.m_Initialized
          · rfl
          · exact absurd hb ht
        by_cases hse : s.m_SampleVectors = []
        · rw [Initialize_of_empty ev s hf (Or.inl hse)] at h ⊢
          exact absurd h ht
        · by_cases hle : s.m_LabelVectors = []
          · rw [Initialize_of_empty ev s hf (Or.inr hle)] at h ⊢
            exact absurd h ht
          · rw [Initialize_of_untrained ev s hf hse hle]
            exact ⟨rfl, rfl⟩
  · intro s x y h
    rcases AddSample_cases s x y with ⟨_, h1⟩ | ⟨he, _⟩
    · exact h1
    · rw [he] at h
      exact absurd h (by simp)
  · intro s x y h
    rcases AddSample_cases s x y with ⟨he, _⟩ | ⟨_, h1⟩
    · exact absurd he h
    · rw [h1]
  · intro s v
    rfl
  · intro s h
    exact Initialize_of_trained ev s h
  · intro s h1 h2
    exact Initialize_of_empty ev s h1 h2
  · intro s h1 hs hl
    exact Initialize_of_untrained ev s h1 hs hl

/-- Witness for C9 at concrete states: a `SetSigma` call clears the flag
of the concrete trained engine, and the trained engine (reached by
`AddSample` then `Initialize` from a fresh engine) is consistent. -/
theorem C9_trained_flag_invariant_witness :
    (SetSigma gaussEngineTrained 0).m_Initialized = false ∧
    ModelConsistent evOne gaussEngineTrained := by
  constructor
  · exact (C9_trained_flag_invariant evOne).2.2.2.1 gaussEngineTrained 0
  · refine (C9_trained_flag_invariant evOne).1 gaussEngineTrained ?_ rfl
    exact Reachable.init gaussEngineDirty
      (Reachable.add (NewGaussianProcess (KernelDesc.gaussian []) InvMethodType.FullPivotLU)
        [1] [1]
        (Reachable.new (KernelDesc.gaussian []) InvMethodType.FullPivotLU))

/-- Counterexample to C9 as stated (trained flag true iff the cache is
consistent): after `SetSigma` with the unchanged noise value 0, the
concrete engine `gaussEngineResigma` has consistent cached matrices but a
cleared trained flag. -/
theorem C9_counterexample :
    ModelConsistent evOne gaussEngineResigma ∧
    gaussEngineResigma.m_Initialized = false := by
  exact ⟨⟨rfl, rfl⟩, rfl⟩

theorem length_matInv (A : Mat) : (matInv A).length = A.length := by
  unfold matInv
  split
  · exact length_mkMat _ _ _
  · exact length_mkMat _ _ _

theorem length_InvertMatrix (m : InvMethodType) (K : Mat) :
    (InvertMatrix m K).length = K.length := by
  cases m <;> exact length_matInv K

theorem length_matMul (A B : Mat) : (matMul A B).length = A.length :=
  length_mkMat _ _ _

theorem length_reg_CRV (ev : AtomicEval) (s : GPState) :
    (ComputeRegressionVectors ev s).m_RegressionVectors.length =
      s.m_SampleVectors.length := by
  show (matMul _ _).length = _
  rw [length_matMul, length_InvertMatrix, length_AddDiagonal, length_ComputeKernelMatrix]

theorem mkVec_congr (n : Nat) (f g : Nat → ℚ) (h : ∀ i, i < n → f i = g i) :
    mkVec n f = mkVec n g := by
  unfold mkVec
  exact List.map_congr_left (fun i hi => h i (List.mem_range.mp hi))

theorem Predict_trained (ev : AtomicEval) (s1 : GPState) (x : Vec)
    (hinit : s1.m_Initialized = true)
    (hreg : s1.m_RegressionVectors.length = s1.m_SampleVectors.length) :
    (Predict ev s1 x).1 = s1 ∧
    (x.length ≠ s1.m_InputDimension →
      (Predict ev s1 x).2 = Except.error GPError.DimensionMismatch) ∧
    (x.length = s1.m_InputDimension →
      (Predict ev s1 x).2 = Except.ok
        (mkVec (cols s1.m_RegressionVectors) (fun j =>
          ((List.range s1.m_SampleVectors.length).map
            (fun i => kEval ev s1.m_Kernel x (s1.m_SampleVectors.getD i []) *
              entry s1.m_RegressionVectors i j)).sum))) := by
  have hI := Initialize_of_trained ev s1 hinit
  have hmain : Predict ev s1 x =
      (s1, if x.length ≠ s1.m_InputDimension then Except.error GPError.DimensionMismatch
        else Except.ok (mkVec (cols s1.m_RegressionVectors) (fun j =>
          ((List.range (ComputeKernelVector ev s1 x).length).map
            (fun i => (ComputeKernelVector ev s1 x).getD i 0 *
              entry s1.m_RegressionVectors i j)).sum))) := by
    by_cases hx : x.length ≠ s1.m_InputDimension
    · simp only [Predict, hI, if_pos hx]
    · simp only [Predict, hI, if_neg hx]
  have hKlen : (ComputeKernelVector ev s1 x).length = s1.m_SampleVectors.length := by
    show (mkVec _ _).length = _
    rw [length_mkVec, hreg]
  refine ⟨by rw [hmain], ?_, ?_⟩
  · intro hx
    rw [hmain]
    show (if x.length ≠ s1.m_InputDimension then _ else _) = _
    rw [if_pos hx]
  · intro hx
    rw [hmain]
    show (if x.length ≠ s1.m_InputDimension then _ else _) = _
    rw [if_neg (by simp [hx])]
    show Except.ok _ = Except.ok _
    congr 1
    apply mkVec_congr
    intro j _
    rw [hKlen]
    apply congrArg List.sum
    apply List.map_congr_left
    intro i hi
    have hi2 : i < s1.m_SampleVectors.length := List.mem_range.mp hi
    have hgd : (ComputeKernelVector ev s1 x).getD i 0 =
        kEval ev s1.m_Kernel x (s1.m_SampleVectors.getD i []) := by
      show (mkVec _ _).getD i 0 = _
      exact getD_mkVec _ _ i (by rw [hreg]; exact hi2)
    rw [hgd]

/-- C6: `Predict(x)` first triggers `Initialize` (retraining only when the
trained flag is unset, a no-op otherwise), fails with `DimensionMismatch`
when `|x|` differs from the input dimension, and otherwise returns the
vector whose entry `j` is `sum_i kernel(x, sample_i) * R[i][j]`, i.e.
`Kx^T * R` with `R` the cached regression-coefficient matrix.  The cache
hypothesis (`R` has one row per sample when the engine is already
trained) always holds for engines trained by `Initialize`. -/
theorem C6_predict_formula (ev : AtomicEval) (s : GPState) (x : Vec)
    (hs : s.m_SampleVectors ≠ [])
    (hl : s.m_LabelVectors ≠ [])
    (hcache : s.m_Initialized = true →
      s.m_RegressionVectors.length = s.m_SampleVectors.length) :
    (Initialize ev s).2 = none ∧
    (Predict ev s x).1 = (Initialize ev s).1 ∧
    (s.m_Initialized = true → (Initialize ev s).1 = s) ∧
    (x.length ≠ s.m_InputDimension →
      (Predict ev s x).2 = Except.error GPError.DimensionMismatch) ∧
    (x.length = s.m_InputDimension →
      (Predict ev s x).2 = Except.ok
        (mkVec (cols ((Initialize ev s).1).m_RegressionVectors) (fun j =>
          ((List.range s.m_SampleVectors.length).map
            (fun i => kEval ev s.m_Kernel x (s.m_SampleVectors.getD i []) *
              entry ((Initialize ev s).1).m_RegressionVectors i j)).sum))) := by
  by_cases hini : s.m_Initialized = true
  · have hI := Initialize_of_trained ev s hini
    have h3 := Predict_trained ev s x hini (hcache hini)
    simp only [hI]
    exact ⟨trivial, h3.1, fun _ => trivial, h3.2.1, h3.2.2⟩
  · have hf : s.m_Initialized = false := by
      cases hb : s.m_Initialized
      · rfl
      · exact absurd hb hini
    have hI := Initialize_of_untrained ev s hf hs hl
    have hreg1 : ({ ComputeRegressionVectors ev s with
        m_Initialized := true } : GPState).m_RegressionVectors.length =
        ({ ComputeRegressionVectors ev s with
          m_Initialized := true } : GPState).m_SampleVectors.length := by
      show (ComputeRegressionVectors ev s).m_RegressionVectors.length =
        s.m_SampleVectors.length
      exact length_reg_CRV ev s
    have h3 := Predict_trained ev
      ({ ComputeRegressionVectors ev s with m_Initialized := true }) x rfl hreg1
    have hPP : Predict ev s x =
        Predict ev ({ ComputeRegressionVectors ev s with m_Initialized := true }) x := by
      unfold Predict
      rw [hI, Initialize_of_trained ev
        ({ ComputeRegressionVectors ev s with m_Initialized := true }) rfl]
    simp only [hI]
    refine ⟨trivial, ?_, ?_, ?_, ?_⟩
    · rw [hPP]
      exact h3.1
    · intro h
      exact absurd h hini
    · intro hx
      rw [hPP]
      exact h3.2.1 hx
    · intro hx
      rw [hPP]
      exact h3.2.2 hx

/-- Witness for C6 at the concrete trained engine `atomicTrainedEngine`:
a correctly sized input leaves the state fixed, a wrongly sized one fails
with `DimensionMismatch`. -/
theorem C6_predict_formula_witness :
    (Predict evOne atomicTrainedEngine [5]).1 = (Initialize evOne atomicTrainedEngine).1 ∧
    (Predict evOne atomicTrainedEngine [5, 6]).2 = Except.error GPError.DimensionMismatch := by
  refine ⟨(C6_predict_formula evOne atomicTrainedEngine [5]
    (by decide) (by decide) (fun _ => rfl)).2.1, ?_⟩
  exact (C6_predict_formula evOne atomicTrainedEngine [5, 6]
    (by decide) (by decide) (fun _ => rfl)).2.2.2.1 (by decide)

theorem ScalarProduct_trained (ev : AtomicEval) (s1 : GPState) (x y : Vec)
    (hinit : s1.m_Initialized = true)
    (hreg : s1.m_RegressionVectors.length = s1.m_SampleVectors.length)
    (hx : x.length = s1.m_InputDimension)
    (hy : y.length = s1.m_InputDimension) :
    (ScalarProduct ev s1 x y).1 = s1 ∧
    (ScalarProduct ev s1 x y).2 = Except.ok (kEval ev s1.m_Kernel x y -
      ((List.range s1.m_SampleVectors.length).map (fun i =>
        kEval ev s1.m_Kernel x (s1.m_SampleVectors.getD i []) *
        ((List.range s1.m_SampleVectors.length).map (fun j =>
          entry s1.m_CoreMatrix i j *
          kEval ev s1.m_Kernel y (s1.m_SampleVectors.getD j []))).sum)).sum) := by
  have hI := Initialize_of_trained ev s1 hinit
  have hKlen : ∀ z : Vec, (ComputeKernelVector ev s1 z).length = s1.m_SampleVectors.length := by
    intro z
    show (mkVec _ _).length = _
    rw [length_mkVec, hreg]
  have hgd : ∀ (z : Vec) (i : Nat), i < s1.m_SampleVectors.length →
      (ComputeKernelVector ev s1 z).getD i 0 =
        kEval ev s1.m_Kernel z (s1.m_SampleVectors.getD i []) := by
    intro z i hi
    show (mkVec _ _).getD i 0 = _
    exact getD_mkVec _ _ i (by rw [hreg]; exact hi)
  have hnx : ¬ (x.length ≠ s1.m_InputDimension) := by simp [hx]
  have hny : ¬ (y.length ≠ s1.m_InputDimension) := by simp [hy]
  have hmain : ScalarProduct ev s1 x y =
      (s1, Except.ok (kEval ev s1.m_Kernel x y -
        ((List.range (ComputeKernelVector ev s1 x).length).map (fun i =>
          (ComputeKernelVector ev s1 x).getD i 0 *
          ((List.range (ComputeKernelVector ev s1 y).length).map (fun j =>
            entry s1.m_CoreMatrix i j * (ComputeKernelVector ev s1 y).getD j 0)).sum)).sum)) := by
    simp only [ScalarProduct, hI]
    rw [if_neg hnx, if_neg hny]
  refine ⟨by rw [hmain], ?_⟩
  rw [hmain]
  show Except.ok _ = Except.ok _
  congr 1
  congr 1
  rw [hKlen x]
  apply congrArg List.sum
  apply List.map_congr_left
  intro i hi
  have hi2 : i < s1.m_SampleVectors.length := List.mem_range.mp hi
  rw [hgd x i hi2, hKlen y]
  congr 1
  apply congrArg List.sum
  apply List.map_congr_left
  intro j hj
  have hj2 : j < s1.m_SampleVectors.length := List.mem_range.mp hj
  rw [hgd y j hj2]

/-- C7: for a well-sized input, the RKHS scalar product `operator()(x, y)`
returns `kernel(x, y) - Kx^T * C * Ky` (with `Kx`, `Ky` the kernel
vectors of `x` and `y` against all samples and `C` the cached core
matrix), `GetCredibleInterval(x)` returns `2 * sqrt(max(0, this(x, x)))`,
and in particular `GetCredibleInterval` never returns a negative number,
even when `this(x, x)` is negative. -/
theorem C7_rkhs_credible_interval (ev : AtomicEval) (s : GPState) (x y : Vec)
    (hs : s.m_SampleVectors ≠ [])
    (hl : s.m_LabelVectors ≠ [])
    (hcache : s.m_Initialized = true →
      s.m_RegressionVectors.length = s.m_SampleVectors.length)
    (hx : x.length = s.m_InputDimension)
    (hy : y.length = s.m_InputDimension) :
    (ScalarProduct ev s x y).1 = (Initialize ev s).1 ∧
    (ScalarProduct ev s x y).2 = Except.ok (kEval ev s.m_Kernel x y -
      ((List.range s.m_SampleVectors.length).map (fun i =>
        kEval ev s.m_Kernel x (s.m_SampleVectors.getD i []) *
        ((List.range s.m_SampleVectors.length).map (fun j =>
          entry ((Initialize ev s).1).m_CoreMatrix i j *
          kEval ev s.m_Kernel y (s.m_SampleVectors.getD j []))).sum)).sum) ∧
    (∀ c : ℚ, (ScalarProduct ev s x x).2 = Except.ok c →
      (GetCredibleInterval ev s x).2 =
        Except.ok (2 * Real.sqrt (max (0 : ℝ) ((c : ℚ) : ℝ)))) ∧
    (∀ r : ℝ, (GetCredibleInterval ev s x).2 = Except.ok r → 0 ≤ r) := by
  have hcred : ∀ c : ℚ, (ScalarProduct ev s x x).2 = Except.ok c →
      (GetCredibleInterval ev s x).2 =
        Except.ok (2 * Real.sqrt (max (0 : ℝ) ((c : ℚ) : ℝ))) := by
    intro c hc
    rcases hP : ScalarProduct ev s x x with ⟨s2, e2⟩
    rw [hP] at hc
    have hc2 : e2 = Except.ok c := hc
    subst hc2
    simp only [GetCredibleInterval, hP]
  have hsqrt : ∀ c : ℝ, (0 : ℝ) ≤ 2 * Real.sqrt (max 0 c) := by
    intro c
    positivity
  by_cases hini : s.m_Initialized = true
  · have hI := Initialize_of_trained ev s hini
    have h2 := ScalarProduct_trained ev s x y hini (hcache hini) hx hy
    have h2xx := ScalarProduct_trained ev s x x hini (hcache hini) hx hx
    simp only [hI]
    refine ⟨h2.1, h2.2, hcred, ?_⟩
    intro r hr
    rw [hcred _ h2xx.2] at hr
    cases hr
    exact hsqrt _
  · have hf : s.m_Initialized = false := by
      cases hb : s.m_Initialized
      · rfl
      · exact absurd hb hini
    have hI := Initialize_of_untrained ev s hf hs hl
    have hreg1 : ({ ComputeRegressionVectors ev s with
        m_Initialized := true } : GPState).m_RegressionVectors.length =
        ({ ComputeRegressionVectors ev s with
          m_Initialized := true } : GPState).m_SampleVectors.length := by
      show (ComputeRegressionVectors ev s).m_RegressionVectors.length =
        s.m_SampleVectors.length
      exact length_reg_CRV ev s
    have h2 := ScalarProduct_trained ev
      ({ ComputeRegressionVectors ev s with m_Initialized := true }) x y rfl hreg1 hx hy
    have h2xx := ScalarProduct_trained ev
      ({ ComputeRegressionVectors ev s with m_Initialized := true }) x x rfl hreg1 hx hx
    have hPPxy : ScalarProduct ev s x y =
        ScalarProduct ev ({ ComputeRegressionVectors ev s with m_Initialized := true }) x y := by
      unfold ScalarProduct
      rw [hI, Initialize_of_trained ev
        ({ ComputeRegressionVectors ev s with m_Initialized := true }) rfl]
    have hPPxx : ScalarProduct ev s x x =
        ScalarProduct ev ({ ComputeRegressionVectors ev s with m_Initialized := true }) x x := by
      unfold ScalarProduct
      rw [hI, Initialize_of_trained ev
        ({ ComputeRegressionVectors ev s with m_Initialized := true }) rfl]
    simp only [hI]
    refine ⟨?_, ?_, hcred, ?_⟩
    · rw [hPPxy]
      exact h2.1
    · rw [hPPxy]
      exact h2.2
    · intro r hr
      rw [hcred _ (by rw [hPPxx]; exact h2xx.2)] at hr
      cases hr
      exact hsqrt _

/-- Witness for C7 at the concrete trained engine `atomicTrainedEngine`
and input `[5]`. -/
theorem C7_rkhs_credible_interval_witness :
    (ScalarProduct evOne atomicTrainedEngine [5] [5]).1 =
      (Initialize evOne atomicTrainedEngine).1 :=
  (C7_rkhs_credible_interval evOne atomicTrainedEngine [5] [5]
    (by decide) (by decide) (fun _ => rfl) rfl rfl).1

theorem gram_entry (ev : AtomicEval) (s : GPState)
    (hsym : ∀ a b : Vec, kEval ev s.m_Kernel a b = kEval ev s.m_Kernel b a)
    (i j : Nat) (hi : i < s.m_SampleVectors.length) (hj : j < s.m_SampleVectors.length) :
    entry (ComputeKernelMatrix ev s) i j =
      kEval ev s.m_Kernel (s.m_SampleVectors.getD i []) (s.m_SampleVectors.getD j []) := by
  unfold ComputeKernelMatrix
  rw [entry_mkMat _ _ _ _ _ hi hj]
  by_cases h : i ≤ j
  · rw [if_pos h]
  · rw [if_neg h]
    exact hsym _ _

/-- C1: on an untrained engine with at least one sample and label and the
`FullPivotLU` strategy, `Initialize` succeeds and: the Gram matrix holds
`kernel(sample_i, sample_j)` in every cell (evaluating only `j ≥ i` and
mirroring, so it is exactly symmetric, given the kernel capability's
required symmetry); the regularized matrix adds sigma to every diagonal
entry; the new core matrix is the exact inverse of the regularized Gram
matrix (two-sided inverse whenever the determinant is non-zero); the
label matrix stacks label vectors as rows; the new regression matrix is
core matrix times label matrix; the trained flag is set; and samples,
labels, sigma and kernel are untouched. -/
theorem C1_initialize_builds_model (ev : AtomicEval) (s : GPState)
    (hsym : ∀ a b : Vec, kEval ev s.m_Kernel a b = kEval ev s.m_Kernel b a)
    (hnt : s.m_Initialized = false)
    (hs : s.m_SampleVectors ≠ [])
    (hl : s.m_LabelVectors ≠ [])
    (him : s.m_InvMethod = InvMethodType.FullPivotLU) :
    (Initialize ev s).2 = none ∧
    (∀ i j, i < s.m_SampleVectors.length → j < s.m_SampleVectors.length →
      entry (ComputeKernelMatrix ev s) i j =
        kEval ev s.m_Kernel (s.m_SampleVectors.getD i []) (s.m_SampleVectors.getD j []) ∧
      entry (ComputeKernelMatrix ev s) i j = entry (ComputeKernelMatrix ev s) j i) ∧
    (AddDiagonal (ComputeKernelMatrix ev s) s.m_Sigma).length =
      s.m_SampleVectors.length ∧
    (∀ i j, i < s.m_SampleVectors.length → j < s.m_SampleVectors.length →
      entry (AddDiagonal (ComputeKernelMatrix ev s) s.m_Sigma) i j =
        entry (ComputeKernelMatrix ev s) i j + if i = j then s.m_Sigma else 0) ∧
    (Initialize ev s).1.m_CoreMatrix =
      matInv (AddDiagonal (ComputeKernelMatrix ev s) s.m_Sigma) ∧
    ((toM (AddDiagonal (ComputeKernelMatrix ev s) s.m_Sigma).length
        (AddDiagonal (ComputeKernelMatrix ev s) s.m_Sigma)).det ≠ 0 →
      toM (AddDiagonal (ComputeKernelMatrix ev s) s.m_Sigma).length
          ((Initialize ev s).1.m_CoreMatrix) *
        toM (AddDiagonal (ComputeKernelMatrix ev s) s.m_Sigma).length
          (AddDiagonal (ComputeKernelMatrix ev s) s.m_Sigma) = 1 ∧
      toM (AddDiagonal (ComputeKernelMatrix ev s) s.m_Sigma).length
          (AddDiagonal (ComputeKernelMatrix ev s) s.m_Sigma) *
        toM (AddDiagonal (ComputeKernelMatrix ev s) s.m_Sigma).length
          ((Initialize ev s).1.m_CoreMatrix) = 1) ∧
    (∀ i j, i < s.m_LabelVectors.length → j < (s.m_LabelVectors.getD 0 []).length →
      entry (ComputeLabelMatrix s) i j = (s.m_LabelVectors.getD i []).getD j 0) ∧
    (Initialize ev s).1.m_RegressionVectors =
      matMul ((Initialize ev s).1.m_CoreMatrix) (ComputeLabelMatrix s) ∧
    (Initialize ev s).1.m_Initialized = true ∧
    (Initialize ev s).1.m_SampleVectors = s.m_SampleVectors ∧
    (Initialize ev s).1.m_LabelVectors = s.m_LabelVectors ∧
    (Initialize ev s).1.m_Sigma = s.m_Sigma ∧
    (Initialize ev s).1.m_Kernel = s.m_Kernel := by
  have hI := Initialize_of_untrained ev s hnt hs hl
  have hKn : (AddDiagonal (ComputeKernelMatrix ev s) s.m_Sigma).length =
      s.m_SampleVectors.length := by
    rw [length_AddDiagonal, length_ComputeKernelMatrix]
  have hcore : (Initialize ev s).1.m_CoreMatrix =
      matInv (AddDiagonal (ComputeKernelMatrix ev s) s.m_Sigma) := by
    simp only [hI]
    show InvertMatrix s.m_InvMethod _ = _
    rw [him]
    rfl
  refine ⟨by rw [hI], ?_, hKn, ?_, hcore, ?_, ?_, ?_, ?_, ?_, ?_, ?_, ?_⟩
  · intro i j hi hj
    constructor
    · exact gram_entry ev s hsym i j hi hj
    · rw [gram_entry ev s hsym i j hi hj, gram_entry ev s hsym j i hj hi]
      exact hsym _ _
  · intro i j hi hj
    unfold AddDiagonal
    rw [entry_mkMat _ _ _ _ _ (by rw [length_ComputeKernelMatrix]; exact hi)
      (by rw [length_ComputeKernelMatrix]; exact hj)]
  · intro hdet
    rw [hcore]
    exact ⟨matInv_mul_self _ hdet, self_mul_matInv _ hdet⟩
  · intro i j hi hj
    unfold ComputeLabelMatrix
    rw [entry_mkMat _ _ _ _ _ hi hj]
  · simp only [hI]
    rfl
  · rw [hI]
  · rw [hI]
    rfl
  · rw [hI]
    rfl
  · rw [hI]
    rfl
  · rw [hI]
    rfl

/-- Witness for C1 at the concrete untrained engine `gaussEngineDirty`
(one sample, one label, constant-1 Gaussian evaluation). -/
theorem C1_initialize_builds_model_witness :
    (Initialize evOne gaussEngineDirty).2 = none ∧
    (Initialize evOne gaussEngineDirty).1.m_Initialized = true ∧
    (Initialize evOne gaussEngineDirty).1.m_CoreMatrix =
      matInv (AddDiagonal (ComputeKernelMatrix evOne gaussEngineDirty)
        gaussEngineDirty.m_Sigma) := by
  have h := C1_initialize_builds_model evOne gaussEngineDirty
    (fun _ _ => rfl) rfl (by decide) (by decide) rfl
  exact ⟨h.1, h.2.2.2.2.2.2.2.2.1, h.2.2.2.2.1⟩

theorem factory_gauss_eval (ps : List ℚ) :
    KernelFactoryLoad "GaussianKernel" ps = some (Except.ok (KernelDesc.gaussian ps)) := rfl

theorem factory_periodic_eval (ps : List ℚ) :
    KernelFactoryLoad "PeriodicKernel" ps = some (Except.ok (KernelDesc.periodic ps)) := rfl

theorem Save_of_trained (E : GPState) (ht : E.m_Initialized = true) :
    Save E = (E, Except.ok
      { regressionFile := E.m_RegressionVectors
        coreFile := E.m_CoreMatrix
        sampleFile := StackColumns E.m_SampleVectors
        labelFile := StackColumns E.m_LabelVectors
        parameterFile :=
          { kernelTypeTag := tagOf E.m_Kernel
            kernelParameters := paramsOf E.m_Kernel
            sigma := E.m_Sigma
            inputDim := E.m_InputDimension
            outputDim := E.m_OutputDimension
            debugFlag := E.debug } }) := by
  unfold Save
  rw [if_neg (by simp [ht])]

theorem Load_gaussian_tag (s : GPState) (fs : FileSystem)
    (regM coreM sampM labM : Mat) (pf : ParamFileContent)
    (hfr : fs.regressionFile = some regM)
    (hfc : fs.coreFile = some coreM)
    (hfsamp : fs.sampleFile = some sampM)
    (hflab : fs.labelFile = some labM)
    (hfp : fs.parameterFile = some pf)
    (hg : pf.kernelTypeTag = "GaussianKernel") :
    Load fs s =
      ({ s with m_RegressionVectors := regM
                m_CoreMatrix := coreM
                m_SampleVectors :=
                  (List.range (cols sampM)).map (fun i => sampM.map (fun row => row.getD i 0))
                m_LabelVectors :=
                  (List.range (cols labM)).map (fun i => labM.map (fun row => row.getD i 0))
                m_Sigma := pf.sigma
                m_InputDimension := pf.inputDim
                m_OutputDimension := pf.outputDim
                debug := pf.debugFlag
                m_Kernel := KernelDesc.gaussian pf.kernelParameters
                m_Initialized := true }, none) := by
  simp [Load, hfr, hfc, hfsamp, hflab, hfp, hg, factory_gauss_eval]

theorem Load_periodic_tag (s : GPState) (fs : FileSystem)
    (regM coreM sampM labM : Mat) (pf : ParamFileContent)
    (hfr : fs.regressionFile = some regM)
    (hfc : fs.coreFile = some coreM)
    (hfsamp : fs.sampleFile = some sampM)
    (hflab : fs.labelFile = some labM)
    (hfp : fs.parameterFile = some pf)
    (hg : pf.kernelTypeTag = "PeriodicKernel") :
    Load fs s =
      ({ s with m_RegressionVectors := regM
                m_CoreMatrix := coreM
                m_SampleVectors :=
                  (List.range (cols sampM)).map (fun i => sampM.map (fun row => row.getD i 0))
                m_LabelVectors :=
                  (List.range (cols labM)).map (fun i => labM.map (fun row => row.getD i 0))
                m_Sigma := pf.sigma
                m_InputDimension := pf.inputDim
                m_OutputDimension := pf.outputDim
                debug := pf.debugFlag
                m_Kernel := KernelDesc.periodic pf.kernelParameters
                m_Initialized := true }, none) := by
  simp [Load, hfr, hfc, hfsamp, hflab, hfp, hg, factory_periodic_eval]

theorem GPEqual_of_eq_fields (a b : GPState)
    (h1 : a.m_RegressionVectors = b.m_RegressionVectors)
    (h2 : a.m_CoreMatrix = b.m_CoreMatrix)
    (h3 : a.m_SampleVectors = b.m_SampleVectors)
    (h4 : a.m_LabelVectors = b.m_LabelVectors)
    (h5 : a.m_Kernel = b.m_Kernel)
    (h6 : a.m_Sigma = b.m_Sigma)
    (h7 : a.m_Initialized = b.m_Initialized)
    (h8 : a.m_InputDimension = b.m_InputDimension)
    (h9 : a.m_OutputDimension = b.m_OutputDimension)
    (h10 : a.debug = b.debug) :
    GPEqual a b = true := by
  unfold GPEqual
  simp [h1, h2, h3, h4, h5, h6, h7, h8, h9, h10]

/-- C5 (amended): for every trained engine whose kernel is a registered
atomic variant (`GaussianKernel` or `PeriodicKernel`) and whose sample and
label vectors are rectangular of positive dimension, `Save` followed by
`Load` into a fresh engine succeeds and the loaded engine is structurally
equal (`operator==`) to the original.  For a one-level `SumKernel`
composition the round trip fails (see the counterexample). -/
theorem C5_roundtrip_atomic (E fresh : GPState)
    (ht : E.m_Initialized = true)
    (hk : IsAtomicKernel E.m_Kernel)
    (hsd : 0 < (E.m_SampleVectors.getD 0 []).length)
    (hld : 0 < (E.m_LabelVectors.getD 0 []).length)
    (hsall : ∀ v ∈ E.m_SampleVectors, v.length = (E.m_SampleVectors.getD 0 []).length)
    (hlall : ∀ v ∈ E.m_LabelVectors, v.length = (E.m_LabelVectors.getD 0 []).length) :
    RoundTripOK E fresh := by
  have hstack_s := stack_extract E.m_SampleVectors hsd hsall
  have hstack_l := stack_extract E.m_LabelVectors hld hlall
  refine ⟨{ regressionFile := E.m_RegressionVectors
            coreFile := E.m_CoreMatrix
            sampleFile := StackColumns E.m_SampleVectors
            labelFile := StackColumns E.m_LabelVectors
            parameterFile :=
              { kernelTypeTag := tagOf E.m_Kernel
                kernelParameters := paramsOf E.m_Kernel
                sigma := E.m_Sigma
                inputDim := E.m_InputDimension
                outputDim := E.m_OutputDimension
                debugFlag := E.debug } }, ?_, ?_⟩
  · rw [Save_of_trained E ht]
  · rcases hk with ⟨ps, hkg⟩ | ⟨ps, hkg⟩
    · have htag : tagOf E.m_Kernel = "GaussianKernel" := by rw [hkg]; rfl
      have hload := Load_gaussian_tag fresh
        (savedToFS { regressionFile := E.m_RegressionVectors, coreFile := E.m_CoreMatrix, sampleFile := StackColumns E.m_SampleVectors, labelFile := StackColumns E.m_LabelVectors, parameterFile := { kernelTypeTag := tagOf E.m_Kernel, kernelParameters := paramsOf E.m_Kernel, sigma := E.m_Sigma, inputDim := E.m_InputDimension, outputDim := E.m_OutputDimension, debugFlag := E.debug } })
        E.m_RegressionVectors E.m_CoreMatrix
        (StackColumns E.m_SampleVectors) (StackColumns E.m_LabelVectors)
        { kernelTypeTag := tagOf E.m_Kernel
          kernelParameters := paramsOf E.m_Kernel
          sigma := E.m_Sigma
          inputDim := E.m_InputDimension
          outputDim := E.m_OutputDimension
          debugFlag := E.debug }
        rfl rfl rfl rfl rfl htag
      rw [hload]
      refine ⟨rfl, ?_⟩
      apply GPEqual_of_eq_fields
      · exact rfl
      · exact rfl
      · exact hstack_s
      · exact hstack_l
      · show KernelDesc.gaussian (paramsOf E.m_Kernel) = E.m_Kernel
        rw [hkg]
        rfl
      · exact rfl
      · exact ht.symm
      · exact rfl
      · exact rfl
      · exact rfl
    · have htag : tagOf E.m_Kernel = "PeriodicKernel" := by rw [hkg]; rfl
      have hload := Load_periodic_tag fresh
        (savedToFS { regressionFile := E.m_RegressionVectors, coreFile := E.m_CoreMatrix, sampleFile := StackColumns E.m_SampleVectors, labelFile := StackColumns E.m_LabelVectors, parameterFile := { kernelTypeTag := tagOf E.m_Kernel, kernelParameters := paramsOf E.m_Kernel, sigma := E.m_Sigma, inputDim := E.m_InputDimension, outputDim := E.m_OutputDimension, debugFlag := E.debug } })
        E.m_RegressionVectors E.m_CoreMatrix
        (StackColumns E.m_SampleVectors) (StackColumns E.m_LabelVectors)
        { kernelTypeTag := tagOf E.m_Kernel
          kernelParameters := paramsOf E.m_Kernel
          sigma := E.m_Sigma
          inputDim := E.m_InputDimension
          outputDim := E.m_OutputDimension
          debugFlag := E.debug }
        rfl rfl rfl rfl rfl htag
      rw [hload]
      refine ⟨rfl, ?_⟩
      apply GPEqual_of_eq_fields
      · exact rfl
      · exact rfl
      · exact hstack_s
      · exact hstack_l
      · show KernelDesc.periodic (paramsOf E.m_Kernel) = E.m_Kernel
        rw [hkg]
        rfl
      · exact rfl
      · exact ht.symm
      · exact rfl
      · exact rfl
      · exact rfl

/-- Witness for C5 (amended) at the concrete trained Gaussian-kernel
engine `atomicTrainedEngine` and the fresh target `freshEngine`. -/
theorem C5_roundtrip_atomic_witness : RoundTripOK atomicTrainedEngine freshEngine :=
  C5_roundtrip_atomic atomicTrainedEngine freshEngine rfl
    (Or.inl ⟨[1], rfl⟩) (by decide) (by decide)
    (by decide) (by decide)

/-- Counterexample to C5 as stated: the concrete engine
`sumEngineTrained` is trained (its flag was set by a successful
`Initialize`) and carries a one-level `SumKernel` composition, but
`Save` then `Load` into a fresh engine does not round-trip: `Load` fails
on the flat-parameter composite reconstruction
(`UnimplementedCompositeKernel`), so no structurally equal engine is
produced. -/
theorem C5_counterexample :
    sumEngineTrained.m_Initialized = true ∧
    (Initialize evOne sumEngineDirty).2 = none ∧
    ¬ RoundTripOK sumEngineTrained freshEngine := by
  refine ⟨rfl, rfl, ?_⟩
  rintro ⟨f, hf, hln, -⟩
  rw [Save_of_trained sumEngineTrained rfl] at hf
  have hf2 : Except.ok
      ({ regressionFile := sumEngineTrained.m_RegressionVectors
         coreFile := sumEngineTrained.m_CoreMatrix
         sampleFile := StackColumns sumEngineTrained.m_SampleVectors
         labelFile := StackColumns sumEngineTrained.m_LabelVectors
         parameterFile :=
           { kernelTypeTag := tagOf sumEngineTrained.m_Kernel
             kernelParameters := paramsOf sumEngineTrained.m_Kernel
             sigma := sumEngineTrained.m_Sigma
             inputDim := sumEngineTrained.m_InputDimension
             outputDim := sumEngineTrained.m_OutputDimension
             debugFlag := sumEngineTrained.debug } } : SavedFiles) = Except.ok f := hf
  have hfeq := (Except.ok.inj hf2).symm
  subst hfeq
  have hload := Load_sumkernel_token freshEngine
    (savedToFS { regressionFile := sumEngineTrained.m_RegressionVectors, coreFile := sumEngineTrained.m_CoreMatrix, sampleFile := StackColumns sumEngineTrained.m_SampleVectors, labelFile := StackColumns sumEngineTrained.m_LabelVectors, parameterFile := { kernelTypeTag := tagOf sumEngineTrained.m_Kernel, kernelParameters := paramsOf sumEngineTrained.m_Kernel, sigma := sumEngineTrained.m_Sigma, inputDim := sumEngineTrained.m_InputDimension, outputDim := sumEngineTrained.m_OutputDimension, debugFlag := sumEngineTrained.debug } })
    sumEngineTrained.m_RegressionVectors sumEngineTrained.m_CoreMatrix
    (StackColumns sumEngineTrained.m_SampleVectors)
    (StackColumns sumEngineTrained.m_LabelVectors)
    { kernelTypeTag := tagOf sumEngineTrained.m_Kernel
      kernelParameters := paramsOf sumEngineTrained.m_Kernel
      sigma := sumEngineTrained.m_Sigma
      inputDim := sumEngineTrained.m_InputDimension
      outputDim := sumEngineTrained.m_OutputDimension
      debugFlag := sumEngineTrained.debug }
    rfl rfl rfl rfl rfl
    (by decide) (by decide) (by decide)
    "GaussianKernel" "PeriodicKernel" rfl
  rw [hload] at hln
  exact Option.noConfusion hln
